import Mathlib

/-!
Shallow embedding of `src/main.rs` of the rust-fabrust-back-end repository:
a small axum HTTP service with two handlers, `get_weight_measurement_id`
(GET /weight/measurement/:id) and `create_weight_measurement`
(POST /weight/measurement), backed by a MongoDB collection.

Modelling decisions, each noted again at the definition it concerns:
* Rust `f32` is embedded as `F32`: exact rational arithmetic on finite
  values plus the IEEE special values `inf`, `neginf`, `nan`.  Rounding and
  overflow are abstracted away (the spec states its arithmetic properties
  "within floating-point tolerance"); the special-value propagation of
  `*` and `/` — in particular division by zero — follows IEEE 754, which is
  what Rust `f32` implements.  A signed zero is not distinguished.
* `bson::oid::ObjectId` is 12 bytes, embedded as `Fin (16 ^ 24)`;
  `ObjectId::default()` delegates to `ObjectId::new()` (a fresh id), so the
  fresh id is passed to the handler as an explicit argument.
* The MongoDB collection is embedded as a list of entities; `insert_one`
  appends, and `find_one` with the filter `doc! { "_id": oid }` returns the
  first entity whose `_id` equals `oid`.
* `chrono::DateTime<Utc>` / `bson::DateTime` timestamps are embedded as an
  integer (milliseconds); no claim depends on the sub-millisecond precision
  that `BsonDateTime::from_chrono` discards.
* Rust panics (`unwrap`, `panic!` — both reachable in the handlers) are the
  `HandlerResult.panicked` outcome.
-/

/-- Embedding of Rust `f32`: a finite value carries an exact rational
(rounding is abstracted away); the IEEE special values are explicit. -/
inductive F32 where
  | finite (q : ℚ)
  | inf
  | neginf
  | nan
deriving DecidableEq

/-- A finite `f32` (i.e. `f32::is_finite`). -/
def F32.isFinite : F32 → Bool
  | .finite _ => true
  | _ => false

/-- IEEE-754 multiplication on the embedded `f32` (exact on finite values;
overflow to infinity is not modelled). -/
def F32.mul : F32 → F32 → F32
  | .nan, _ => .nan
  | _, .nan => .nan
  | .finite a, .finite b => .finite (a * b)
  | .finite a, .inf => if 0 < a then .inf else if a < 0 then .neginf else .nan
  | .finite a, .neginf => if 0 < a then .neginf else if a < 0 then .inf else .nan
  | .inf, .finite b => if 0 < b then .inf else if b < 0 then .neginf else .nan
  | .neginf, .finite b => if 0 < b then .neginf else if b < 0 then .inf else .nan
  | .inf, .inf => .inf
  | .inf, .neginf => .neginf
  | .neginf, .inf => .neginf
  | .neginf, .neginf => .inf

/-- IEEE-754 division on the embedded `f32` (exact on finite values; a
nonzero finite value divided by zero is a signed infinity, `0 / 0` is NaN). -/
def F32.div : F32 → F32 → F32
  | .nan, _ => .nan
  | _, .nan => .nan
  | .finite a, .finite b =>
      if b = 0 then (if 0 < a then .inf else if a < 0 then .neginf else .nan)
      else .finite (a / b)
  | .finite _, .inf => .finite 0
  | .finite _, .neginf => .finite 0
  | .inf, .finite b => if 0 ≤ b then .inf else .neginf
  | .neginf, .finite b => if 0 ≤ b then .neginf else .inf
  | .inf, _ => .nan
  | .neginf, _ => .nan

/-- Embedding of `bson::oid::ObjectId`: 12 bytes, i.e. a natural number
below `16 ^ 24`. -/
abbrev ObjectId := Fin (16 ^ 24)

/-- The lower-case hexadecimal digit for `n < 16` (as produced by
`ObjectId::to_hex`). -/
def hexDigitChar (n : ℕ) : Char :=
  if n < 10 then Char.ofNat (48 + n) else Char.ofNat (87 + n)

/-- The `w` low hexadecimal digits of `n`, most significant first, zero
padded to width `w`. -/
def natToHexDigits : ℕ → ℕ → List Char
  | 0, _ => []
  | w + 1, n => natToHexDigits w (n / 16) ++ [hexDigitChar (n % 16)]

/-- `ObjectId::to_hex` / `Display for ObjectId`: the 24-character lower-case
hex encoding of the 12 bytes. -/
def ObjectId.to_hex (o : ObjectId) : String :=
  String.mk (natToHexDigits 24 o.val)

/-- The value of one hex character, upper or lower case accepted (as by
`hex::decode`, which `ObjectId::parse_str` uses); `none` on a non-hex
character. -/
def hexCharVal? (c : Char) : Option ℕ :=
  if '0' ≤ c ∧ c ≤ '9' then some (c.toNat - 48)
  else if 'a' ≤ c ∧ c ≤ 'f' then some (c.toNat - 87)
  else if 'A' ≤ c ∧ c ≤ 'F' then some (c.toNat - 55)
  else none

/-- The value of a big-endian string of hex characters; `none` if any
character is not a hex digit. -/
def hexVal? (l : List Char) : Option ℕ :=
  l.foldl (fun a c => a.bind fun n => (hexCharVal? c).map fun d => n * 16 + d)
    (some 0)

/-- `bson::oid::ObjectId::parse_str`: succeeds exactly on 24-character hex
strings (12 decoded bytes). -/
def ObjectId.parse_str (s : String) : Option ObjectId :=
  if s.data.length = 24 then
    (hexVal? s.data).bind fun n => if h : n < 16 ^ 24 then some ⟨n, h⟩ else none
  else none

/-- `Display for Bson` applied to `Bson::ObjectId` — what
`InsertOneResult::inserted_id.to_string()` produces in
`create_weight_measurement`: the hex id wrapped in `ObjectId("...")`. -/
def bsonObjectIdDisplay (o : ObjectId) : String :=
  "ObjectId(\"" ++ o.to_hex ++ "\")"

/-- `struct WheightMeasurementInput` (main.rs:137-150), the deserialized
POST body.  `date: DateTime<Utc>` is an integer timestamp, the `f32` fields
are `F32`, `metabolic_age: u8` is a natural number (the parse step below
only produces values `≤ 255`). -/
structure WheightMeasurementInput where
  date : ℤ
  wheight_kg : F32
  imc : F32
  fat_percentage : F32
  water_percentage : F32
  protein_percentage : F32
  metabolism_kcal : F32
  visceral_fat_index : F32
  muscle_kg : F32
  bone_kg : F32
  metabolic_age : ℕ
deriving DecidableEq

/-- `struct WheightMeasurementEntity` (main.rs:162-178), the stored
document. -/
structure WheightMeasurementEntity where
  _id : ObjectId
  date : ℤ
  wheight_kg : F32
  imc : F32
  fat_percentage : F32
  water_percentage : F32
  protein_percentage : F32
  metabolism_kcal : F32
  visceral_fat_index : F32
  muscle_kg : F32
  bone_kg : F32
  metabolic_age : ℕ
  fat_kg : F32
  muscle_percentage : F32
deriving DecidableEq

/-- `struct WheightMeasurementOutput` (main.rs:181-203), the GET response
body. -/
structure WheightMeasurementOutput where
  id : String
  date : ℤ
  wheight_kg : F32
  imc : F32
  fat_percentage : F32
  water_percentage : F32
  protein_percentage : F32
  metabolism_kcal : F32
  visceral_fat_index : F32
  muscle_kg : F32
  bone_kg : F32
  metabolic_age : ℕ
  fat_kg : F32
  muscle_percentage : F32
  wheight_kg_diff : F32
  fat_percentage_diff : F32
  muscle_kg_diff : F32
  bone_kg_diff : F32
  fat_kg_diff : F32
  muscle_percentage_diff : F32
deriving DecidableEq

/-- `WheightMeasurementOutput::from_entity` (main.rs:206-229): copies every
stored field, renders the id as hex (`Display for ObjectId`), and sets all
six `_diff` fields to `0_f32`. -/
def WheightMeasurementOutput.from_entity (entity : WheightMeasurementEntity) :
    WheightMeasurementOutput where
  id := entity._id.to_hex
  date := entity.date
  wheight_kg := entity.wheight_kg
  imc := entity.imc
  fat_percentage := entity.fat_percentage
  water_percentage := entity.water_percentage
  protein_percentage := entity.protein_percentage
  metabolism_kcal := entity.metabolism_kcal
  visceral_fat_index := entity.visceral_fat_index
  muscle_kg := entity.muscle_kg
  bone_kg := entity.bone_kg
  metabolic_age := entity.metabolic_age
  fat_kg := entity.fat_kg
  muscle_percentage := entity.muscle_percentage
  wheight_kg_diff := F32.finite 0
  fat_percentage_diff := F32.finite 0
  muscle_kg_diff := F32.finite 0
  bone_kg_diff := F32.finite 0
  fat_kg_diff := F32.finite 0
  muscle_percentage_diff := F32.finite 0

/-- The `"fabdev"/"Wheights"` MongoDB collection, one document per
measurement. -/
abbrev Store := List WheightMeasurementEntity

/-- The HTTP status codes the two handlers produce. -/
inductive HttpStatus where
  | ok
  | created
  | notFound
  | badRequest
deriving DecidableEq

/-- An HTTP response body together with its status: a measurement output
(GET hit), an error object such as `ErrorResponse { message: "Not Found" }`,
or a `WheightMeasurementIdResponse { id }`. -/
inductive Response where
  | outputBody : HttpStatus → WheightMeasurementOutput → Response
  | errorBody : HttpStatus → String → Response
  | idBody : HttpStatus → String → Response
deriving DecidableEq

/-- Outcome of running a handler: a response, or a Rust panic (which kills
the process). -/
inductive HandlerResult where
  | result : Response → HandlerResult
  | panicked : String → HandlerResult
deriving DecidableEq

/-- `get_weight_measurement_id` (main.rs:78-95): parse the path id with
`ObjectId::parse_str(id).unwrap()` (a panic on a malformed id), run
`find_one` on the `_id` filter, and answer 200 with the mapped output or
404 with `{ "message": "Not Found" }`.  `find_one` only reads, so the store
is returned unchanged. -/
def get_weight_measurement_id (id : String) (s : Store) : HandlerResult × Store :=
  match ObjectId.parse_str id with
  | none => (HandlerResult.panicked "called Result::unwrap on an Err value", s)
  | some oid =>
    match s.find? (fun e => decide (e._id = oid)) with
    | some e =>
        (HandlerResult.result
          (Response.outputBody HttpStatus.ok (WheightMeasurementOutput.from_entity e)), s)
    | none =>
        (HandlerResult.result (Response.errorBody HttpStatus.notFound "Not Found"), s)

/-- The `WheightMeasurementEntity` struct literal of
`create_weight_measurement` (main.rs:103-118): `_id` is the fresh
`ObjectId::default()`, the payload fields are copied, and the two derived
fields are computed as `wheight_kg * (fat_percentage / 100)` and
`100 * (muscle_kg / wheight_kg)`. -/
def mkEntity (freshId : ObjectId) (payload : WheightMeasurementInput) :
    WheightMeasurementEntity where
  _id := freshId
  date := payload.date
  wheight_kg := payload.wheight_kg
  imc := payload.imc
  fat_percentage := payload.fat_percentage
  water_percentage := payload.water_percentage
  protein_percentage := payload.protein_percentage
  metabolism_kcal := payload.metabolism_kcal
  visceral_fat_index := payload.visceral_fat_index
  muscle_kg := payload.muscle_kg
  bone_kg := payload.bone_kg
  metabolic_age := payload.metabolic_age
  fat_kg := F32.mul payload.wheight_kg (F32.div payload.fat_percentage (F32.finite 100))
  muscle_percentage := F32.mul (F32.finite 100) (F32.div payload.muscle_kg payload.wheight_kg)

/-- `create_weight_measurement` (main.rs:97-134), after the `Json` extractor
succeeded: build the entity, `insert_one` it (an append), and answer 201
with `{ id: result.inserted_id.to_string() }` — the `Bson` display of the
inserted `_id`.  The fresh id generated by `ObjectId::default()` is an
explicit argument. -/
def create_weight_measurement (payload : WheightMeasurementInput)
    (freshId : ObjectId) (s : Store) : HandlerResult × Store :=
  let measurement := mkEntity freshId payload
  (HandlerResult.result
      (Response.idBody HttpStatus.created (bsonObjectIdDisplay measurement._id)),
    s ++ [measurement])

/-- The inbound POST body as the deserializer sees it, one slot per field of
`WheightMeasurementInput`.  `some v` means the key is present and holds a
value of the right JSON shape (a number for the numeric fields, a valid
ISO-8601 date-time — embedded as its timestamp — for `date`); `none` means
the key is missing or its value is malformed.  JSON numbers are exact
rationals. -/
structure RawWheightMeasurementInput where
  date : Option ℤ
  wheight_kg : Option ℚ
  imc : Option ℚ
  fat_percentage : Option ℚ
  water_percentage : Option ℚ
  protein_percentage : Option ℚ
  metabolism_kcal : Option ℚ
  visceral_fat_index : Option ℚ
  muscle_kg : Option ℚ
  bone_kg : Option ℚ
  metabolic_age : Option ℚ

/-- serde's `u8` deserialization: a JSON number deserializes into `u8`
exactly when it is an integer in `0..=255`; negative, fractional and
out-of-range numbers are a data error. -/
def parseU8? (q : ℚ) : Option ℕ :=
  if q.den = 1 ∧ 0 ≤ q.num ∧ q.num ≤ 255 then some q.num.toNat else none

/-- The `#[derive(Deserialize)]` parse of `WheightMeasurementInput`
(main.rs:137-150): every field must be present and well shaped; the ten
`f32` fields accept any JSON number (rounding abstracted away), while
`metabolic_age: u8` additionally rejects anything but an integer in
`0..=255`. -/
def parseWheightMeasurementInput (r : RawWheightMeasurementInput) :
    Option WheightMeasurementInput := do
  let d ← r.date
  let w ← r.wheight_kg
  let i ← r.imc
  let f ← r.fat_percentage
  let wa ← r.water_percentage
  let pr ← r.protein_percentage
  let me ← r.metabolism_kcal
  let vi ← r.visceral_fat_index
  let mu ← r.muscle_kg
  let bo ← r.bone_kg
  let maq ← r.metabolic_age
  let ma ← parseU8? maq
  pure
    { date := d
      wheight_kg := F32.finite w
      imc := F32.finite i
      fat_percentage := F32.finite f
      water_percentage := F32.finite wa
      protein_percentage := F32.finite pr
      metabolism_kcal := F32.finite me
      visceral_fat_index := F32.finite vi
      muscle_kg := F32.finite mu
      bone_kg := F32.finite bo
      metabolic_age := ma }

/-- Modelled from the spec: the transport layer's mapping of a
deserialization failure of the POST body.  The axum `Json` extractor and
the dependency manifest that pins its version are not under `src/`; per the
spec, a payload that fails to parse "fails with `ValidationError` → HTTP
400 Bad Request (standard deserialization-failure mapping expected by the
transport layer)". -/
def validationErrorResponse : Response :=
  Response.errorBody HttpStatus.badRequest "ValidationError"

/-- The full POST route: the `Json<WheightMeasurementInput>` extractor
(deserialization, rejected with `validationErrorResponse` on failure,
leaving the store untouched) followed by the `create_weight_measurement`
handler. -/
def create_weight_measurement_route (raw : RawWheightMeasurementInput)
    (freshId : ObjectId) (s : Store) : HandlerResult × Store :=
  match parseWheightMeasurementInput raw with
  | none => (HandlerResult.result validationErrorResponse, s)
  | some payload => create_weight_measurement payload freshId s

/-- The all-zero `ObjectId` (hex `000000000000000000000000`), used as the
concrete fresh id in the concrete scenarios below. -/
def oid0 : ObjectId := ⟨0, by norm_num⟩

/-- The concrete payload of the spec's POST scenario:
`date 2024-01-01T00:00:00Z, wheight_kg 80.0, imc 24.5, fat_percentage 20.0,
water_percentage 55.0, protein_percentage 18.0, metabolism_kcal 1800.0,
visceral_fat_index 8.0, muscle_kg 60.0, bone_kg 3.2, metabolic_age 30`. -/
def pEx : WheightMeasurementInput where
  date := 1704067200000
  wheight_kg := F32.finite 80
  imc := F32.finite (49 / 2)
  fat_percentage := F32.finite 20
  water_percentage := F32.finite 55
  protein_percentage := F32.finite 18
  metabolism_kcal := F32.finite 1800
  visceral_fat_index := F32.finite 8
  muscle_kg := F32.finite 60
  bone_kg := F32.finite (16 / 5)
  metabolic_age := 30

/-- The scenario payload with `wheight_kg` zero (division by zero in the
derived `muscle_percentage`). -/
def pExZero : WheightMeasurementInput := { pEx with wheight_kg := F32.finite 0 }

/-- The scenario body as the deserializer sees it, with `fat_percentage`
altered to `250.0` — outside the expected 0–100 range. -/
def rawEx250 : RawWheightMeasurementInput where
  date := some 1704067200000
  wheight_kg := some 80
  imc := some (49 / 2)
  fat_percentage := some 250
  water_percentage := some 55
  protein_percentage := some 18
  metabolism_kcal := some 1800
  visceral_fat_index := some 8
  muscle_kg := some 60
  bone_kg := some (16 / 5)
  metabolic_age := some 30

/-- The parsed form of `rawEx250`. -/
def pEx250 : WheightMeasurementInput := { pEx with fat_percentage := F32.finite 250 }

/-! ## Supporting lemmas -/

theorem hexCharVal?_hexDigitChar : ∀ d < 16, hexCharVal? (hexDigitChar d) = some d := by
  decide

theorem natToHexDigits_length (w n : ℕ) : (natToHexDigits w n).length = w := by
  induction w generalizing n with
  | zero => simp [natToHexDigits]
  | succ w ih => simp [natToHexDigits, ih]

theorem foldl_natToHexDigits (w : ℕ) : ∀ n acc : ℕ,
    List.foldl (fun a c => a.bind fun m => (hexCharVal? c).map fun d => m * 16 + d)
      (some acc) (natToHexDigits w n) = some (acc * 16 ^ w + n % 16 ^ w) := by
  induction w with
  | zero => intro n acc; simp [natToHexDigits, Nat.mod_one]
  | succ w ih =>
    intro n acc
    rw [natToHexDigits, List.foldl_append, ih (n / 16) acc]
    rw [List.foldl_cons, List.foldl_nil]
    simp only [hexCharVal?_hexDigitChar (n % 16) (Nat.mod_lt n (by norm_num)),
      Option.some_bind, Option.map_some']
    congr 1
    rw [pow_succ, mul_comm (16 ^ w) 16, Nat.mod_mul]
    ring

theorem hexVal?_natToHexDigits (w n : ℕ) :
    hexVal? (natToHexDigits w n) = some (n % 16 ^ w) := by
  rw [hexVal?, foldl_natToHexDigits]
  simp

theorem data_String_mk (l : List Char) : (String.mk l).data = l := rfl

theorem parse_str_to_hex (o : ObjectId) : ObjectId.parse_str o.to_hex = some o := by
  rw [ObjectId.parse_str, ObjectId.to_hex, data_String_mk]
  rw [if_pos (natToHexDigits_length 24 o.val), hexVal?_natToHexDigits,
    Nat.mod_eq_of_lt o.isLt]
  rw [Option.some_bind, dif_pos o.isLt]

theorem mem_natToHexDigits_isHex (w : ℕ) : ∀ n : ℕ, ∀ c ∈ natToHexDigits w n,
    (hexCharVal? c).isSome := by
  induction w with
  | zero => intro n c hc; simp [natToHexDigits] at hc
  | succ w ih =>
    intro n c hc
    rw [natToHexDigits, List.mem_append] at hc
    rcases hc with hc | hc
    · exact ih (n / 16) c hc
    · simp only [List.mem_singleton] at hc
      subst hc
      rw [hexCharVal?_hexDigitChar (n % 16) (Nat.mod_lt n (by norm_num))]
      rfl

theorem get_weight_measurement_id_snd (id : String) (s : Store) :
    (get_weight_measurement_id id s).2 = s := by
  rw [get_weight_measurement_id]
  split
  · rfl
  · split <;> rfl

theorem find?_append_of_eq_none {α : Type} (p : α → Bool) (l₁ l₂ : List α)
    (h : l₁.find? p = none) : (l₁ ++ l₂).find? p = l₂.find? p := by
  induction l₁ with
  | nil => rfl
  | cons a l ih =>
    by_cases hpa : p a
    · rw [List.find?_cons_of_pos _ hpa] at h
      exact absurd h (by simp)
    · rw [List.cons_append, List.find?_cons_of_neg _ hpa]
      rw [List.find?_cons_of_neg _ hpa] at h
      exact ih h

theorem route_validation_iff_parse_none (raw : RawWheightMeasurementInput)
    (oid : ObjectId) (s : Store) :
    (create_weight_measurement_route raw oid s).1
        = HandlerResult.result validationErrorResponse
      ↔ parseWheightMeasurementInput raw = none := by
  rw [create_weight_measurement_route]
  cases h : parseWheightMeasurementInput raw with
  | none => simp
  | some payload =>
    simp [create_weight_measurement, validationErrorResponse]

/-- C5: on an identifier string that is not a valid `ObjectId` hex encoding,
`get_weight_measurement_id` does not answer HTTP 400: it panics in
`ObjectId::parse_str(id).unwrap()`, killing the process (the defect the spec
flags; its corrected contract is 400, never a crash). -/
theorem c5_malformed_id_panics :
    get_weight_measurement_id "not-a-valid-object-id" []
      = (HandlerResult.panicked "called Result::unwrap on an Err value", []) := by
  decide

/-- C8: `get_weight_measurement_id` is idempotent — running it a second time
on the store the first call returned (no external mutation in between)
returns the identical result and store. -/
theorem c8_get_idempotent (id : String) (s : Store) :
    get_weight_measurement_id id ((get_weight_measurement_id id s).2)
      = get_weight_measurement_id id s := by
  rw [get_weight_measurement_id_snd id s]

/-- C9: no operation updates or deletes a stored measurement — the GET
handler returns the store unchanged, and the POST route either changes
nothing (rejected payload) or appends exactly one new document, leaving
every previously stored document in place. -/
theorem c9_no_update_no_delete (id : String) (raw : RawWheightMeasurementInput)
    (oid : ObjectId) (s : Store) :
    (get_weight_measurement_id id s).2 = s
    ∧ ((create_weight_measurement_route raw oid s).2 = s
        ∨ ∃ e, (create_weight_measurement_route raw oid s).2 = s ++ [e]) := by
  refine ⟨get_weight_measurement_id_snd id s, ?_⟩
  rw [create_weight_measurement_route]
  cases parseWheightMeasurementInput raw with
  | none => exact Or.inl rfl
  | some payload => exact Or.inr ⟨mkEntity oid payload, rfl⟩

/-- C1: the entity built and persisted by `create_weight_measurement` stores
`fat_kg = wheight_kg × fat_percentage / 100` and
`muscle_percentage = 100 × muscle_kg / wheight_kg`, computed once at
creation time (on finite inputs with nonzero weight the stored values equal
these expressions exactly in the embedding's exact arithmetic). -/
theorem c1_derived_fields (p : WheightMeasurementInput) (oid : ObjectId)
    (s : Store) (w f m : ℚ) (hw : p.wheight_kg = F32.finite w)
    (hf : p.fat_percentage = F32.finite f) (hm : p.muscle_kg = F32.finite m)
    (hw0 : w ≠ 0) :
    (create_weight_measurement p oid s).2 = s ++ [mkEntity oid p]
    ∧ (mkEntity oid p).fat_kg
        = F32.div (F32.mul p.wheight_kg p.fat_percentage) (F32.finite 100)
    ∧ (mkEntity oid p).muscle_percentage
        = F32.div (F32.mul (F32.finite 100) p.muscle_kg) p.wheight_kg := by
  have h100 : (100 : ℚ) ≠ 0 := by norm_num
  refine ⟨rfl, ?_, ?_⟩
  · simp only [mkEntity, hw, hf, F32.mul, F32.div, if_neg h100]
    congr 1
    ring
  · simp only [mkEntity, hw, hm, F32.mul, F32.div, if_neg hw0]
    congr 1
    ring

theorem c1_derived_fields_witness :
    (create_weight_measurement pEx oid0 []).2 = [] ++ [mkEntity oid0 pEx]
    ∧ (mkEntity oid0 pEx).fat_kg
        = F32.div (F32.mul pEx.wheight_kg pEx.fat_percentage) (F32.finite 100)
    ∧ (mkEntity oid0 pEx).muscle_percentage
        = F32.div (F32.mul (F32.finite 100) pEx.muscle_kg) pEx.wheight_kg :=
  c1_derived_fields pEx oid0 [] 80 20 60 rfl rfl rfl (by norm_num)

/-- C4 counterexample: for the spec's concrete scenario payload the POST
handler does answer 201 with a single-field id body, but the id string is
`ObjectId("000000000000000000000000")` — the `Bson` display of the new id —
which is not a 24-hex-character string (it is 36 characters long). -/
theorem c4_counterexample :
    (create_weight_measurement pEx oid0 []).1
      = HandlerResult.result (Response.idBody HttpStatus.created
          "ObjectId(\"000000000000000000000000\")")
    ∧ ¬("ObjectId(\"000000000000000000000000\")".length = 24
        ∧ ∀ c ∈ "ObjectId(\"000000000000000000000000\")".data,
            (hexCharVal? c).isSome) := by
  refine ⟨rfl, ?_⟩
  decide

/-- C4 (amended): for every successfully parsed create payload the handler
responds 201 Created with a body whose single field `id` is the newly
assigned identifier rendered through `Display for Bson`, i.e. the string
`ObjectId("<24-hex-char string>")` wrapping the 24-hex-character encoding
of the id (not the bare hex string). -/
theorem c4_created_response_format (p : WheightMeasurementInput)
    (oid : ObjectId) (s : Store) :
    (create_weight_measurement p oid s).1
      = HandlerResult.result (Response.idBody HttpStatus.created
          ("ObjectId(\"" ++ ObjectId.to_hex oid ++ "\")"))
    ∧ (ObjectId.to_hex oid).length = 24
    ∧ ∀ c ∈ (ObjectId.to_hex oid).data, (hexCharVal? c).isSome := by
  refine ⟨rfl, ?_, ?_⟩
  · exact natToHexDigits_length 24 oid.val
  · intro c hc
    exact mem_natToHexDigits_isHex 24 oid.val c hc

theorem get_weight_measurement_id_found (id : String) (s : Store) (oid : ObjectId)
    (e : WheightMeasurementEntity) (hid : ObjectId.parse_str id = some oid)
    (hfind : s.find? (fun x => decide (x._id = oid)) = some e) :
    get_weight_measurement_id id s
      = (HandlerResult.result (Response.outputBody HttpStatus.ok
          (WheightMeasurementOutput.from_entity e)), s) := by
  simp only [get_weight_measurement_id, hid, hfind]

theorem get_weight_measurement_id_not_found (id : String) (s : Store) (oid : ObjectId)
    (hid : ObjectId.parse_str id = some oid)
    (hfind : s.find? (fun x => decide (x._id = oid)) = none) :
    get_weight_measurement_id id s
      = (HandlerResult.result (Response.errorBody HttpStatus.notFound "Not Found"), s) := by
  simp only [get_weight_measurement_id, hid, hfind]

/-- C2 counterexample: for the spec's concrete scenario, `create` answers
201 with the id string `ObjectId("000000000000000000000000")`, and fetching
with exactly that returned string does not yield the stored measurement —
`get_weight_measurement_id` panics, because `ObjectId::parse_str` rejects
the wrapped rendering. -/
theorem c2_counterexample :
    (create_weight_measurement pEx oid0 []).1
      = HandlerResult.result (Response.idBody HttpStatus.created
          "ObjectId(\"000000000000000000000000\")")
    ∧ (get_weight_measurement_id "ObjectId(\"000000000000000000000000\")"
          (create_weight_measurement pEx oid0 []).2).1
      = HandlerResult.panicked "called Result::unwrap on an Err value" :=
  ⟨rfl, rfl⟩

/-- C2 (amended): fetching the created measurement by the 24-hex-character
encoding of its id (the hex the returned `ObjectId("<hex>")` string wraps,
not that returned string itself) yields a 200 Output whose non-diff fields
equal the corresponding values of the created entity exactly. -/
theorem c2_roundtrip_with_hex_id (p : WheightMeasurementInput) (oid : ObjectId)
    (s : Store) (hfresh : ∀ e ∈ s, e._id ≠ oid) :
    get_weight_measurement_id (ObjectId.to_hex oid)
        (create_weight_measurement p oid s).2
      = (HandlerResult.result (Response.outputBody HttpStatus.ok
          (WheightMeasurementOutput.from_entity (mkEntity oid p))),
         (create_weight_measurement p oid s).2)
    ∧ (WheightMeasurementOutput.from_entity (mkEntity oid p)).date
        = (mkEntity oid p).date
    ∧ (WheightMeasurementOutput.from_entity (mkEntity oid p)).wheight_kg
        = (mkEntity oid p).wheight_kg
    ∧ (WheightMeasurementOutput.from_entity (mkEntity oid p)).imc
        = (mkEntity oid p).imc
    ∧ (WheightMeasurementOutput.from_entity (mkEntity oid p)).fat_percentage
        = (mkEntity oid p).fat_percentage
    ∧ (WheightMeasurementOutput.from_entity (mkEntity oid p)).water_percentage
        = (mkEntity oid p).water_percentage
    ∧ (WheightMeasurementOutput.from_entity (mkEntity oid p)).protein_percentage
        = (mkEntity oid p).protein_percentage
    ∧ (WheightMeasurementOutput.from_entity (mkEntity oid p)).metabolism_kcal
        = (mkEntity oid p).metabolism_kcal
    ∧ (WheightMeasurementOutput.from_entity (mkEntity oid p)).visceral_fat_index
        = (mkEntity oid p).visceral_fat_index
    ∧ (WheightMeasurementOutput.from_entity (mkEntity oid p)).muscle_kg
        = (mkEntity oid p).muscle_kg
    ∧ (WheightMeasurementOutput.from_entity (mkEntity oid p)).bone_kg
        = (mkEntity oid p).bone_kg
    ∧ (WheightMeasurementOutput.from_entity (mkEntity oid p)).metabolic_age
        = (mkEntity oid p).metabolic_age
    ∧ (WheightMeasurementOutput.from_entity (mkEntity oid p)).fat_kg
        = (mkEntity oid p).fat_kg
    ∧ (WheightMeasurementOutput.from_entity (mkEntity oid p)).muscle_percentage
        = (mkEntity oid p).muscle_percentage := by
  refine ⟨?_, rfl, rfl, rfl, rfl, rfl, rfl, rfl, rfl, rfl, rfl, rfl, rfl, rfl⟩
  have hsnd : (create_weight_measurement p oid s).2 = s ++ [mkEntity oid p] := rfl
  have hnone : s.find? (fun x => decide (x._id = oid)) = none := by
    apply List.find?_eq_none.mpr
    intro x hx
    simpa using hfresh x hx
  have hfind : (s ++ [mkEntity oid p]).find? (fun x => decide (x._id = oid))
      = some (mkEntity oid p) := by
    rw [find?_append_of_eq_none _ s _ hnone]
    simp [mkEntity]
  rw [hsnd] at *
  exact get_weight_measurement_id_found (ObjectId.to_hex oid) _ oid _
    (parse_str_to_hex oid) hfind

theorem c2_roundtrip_with_hex_id_witness :
    get_weight_measurement_id (ObjectId.to_hex oid0)
        (create_weight_measurement pEx oid0 []).2
      = (HandlerResult.result (Response.outputBody HttpStatus.ok
          (WheightMeasurementOutput.from_entity (mkEntity oid0 pEx))),
         (create_weight_measurement pEx oid0 []).2) :=
  (c2_roundtrip_with_hex_id pEx oid0 [] (by simp)).1

/-- C3: on a well-formed identifier, `get_weight_measurement_id` answers 200
with the stored measurement mapped to the Output shape — all six `_diff`
fields zero — when a matching document exists, and 404 with the body
`message = "Not Found"` when none matches. -/
theorem c3_get_found_200_or_404 (id : String) (oid : ObjectId) (s : Store)
    (hid : ObjectId.parse_str id = some oid) :
    (∀ e, s.find? (fun x => decide (x._id = oid)) = some e →
      get_weight_measurement_id id s
        = (HandlerResult.result (Response.outputBody HttpStatus.ok
            (WheightMeasurementOutput.from_entity e)), s)
      ∧ (WheightMeasurementOutput.from_entity e).wheight_kg_diff = F32.finite 0
      ∧ (WheightMeasurementOutput.from_entity e).fat_percentage_diff = F32.finite 0
      ∧ (WheightMeasurementOutput.from_entity e).muscle_kg_diff = F32.finite 0
      ∧ (WheightMeasurementOutput.from_entity e).bone_kg_diff = F32.finite 0
      ∧ (WheightMeasurementOutput.from_entity e).fat_kg_diff = F32.finite 0
      ∧ (WheightMeasurementOutput.from_entity e).muscle_percentage_diff = F32.finite 0)
    ∧ (s.find? (fun x => decide (x._id = oid)) = none →
      get_weight_measurement_id id s
        = (HandlerResult.result (Response.errorBody HttpStatus.notFound "Not Found"), s)) := by
  constructor
  · intro e hfind
    exact ⟨get_weight_measurement_id_found id s oid e hid hfind,
      rfl, rfl, rfl, rfl, rfl, rfl⟩
  · intro hfind
    exact get_weight_measurement_id_not_found id s oid hid hfind

theorem c3_get_found_200_or_404_witness :
    (get_weight_measurement_id "000000000000000000000000" [mkEntity oid0 pEx]
      = (HandlerResult.result (Response.outputBody HttpStatus.ok
          (WheightMeasurementOutput.from_entity (mkEntity oid0 pEx))),
         [mkEntity oid0 pEx]))
    ∧ (get_weight_measurement_id "000000000000000000000000" []
      = (HandlerResult.result (Response.errorBody HttpStatus.notFound "Not Found"), [])) :=
  ⟨((c3_get_found_200_or_404 "000000000000000000000000" oid0 [mkEntity oid0 pEx]
      (by decide)).1 (mkEntity oid0 pEx) rfl).1,
   (c3_get_found_200_or_404 "000000000000000000000000" oid0 [] (by decide)).2 rfl⟩

/-- C7: a payload whose `wheight_kg` is zero is not rejected — `create`
answers 201 and stores the entity, whose `muscle_percentage`
(`100 * (muscle_kg / 0)`) is non-finite (an infinity or NaN). -/
theorem c7_zero_weight_stores_nonfinite (p : WheightMeasurementInput)
    (oid : ObjectId) (s : Store) (hw : p.wheight_kg = F32.finite 0) :
    (create_weight_measurement p oid s).1
      = HandlerResult.result (Response.idBody HttpStatus.created
          (bsonObjectIdDisplay oid))
    ∧ (create_weight_measurement p oid s).2 = s ++ [mkEntity oid p]
    ∧ (mkEntity oid p).muscle_percentage.isFinite = false := by
  refine ⟨rfl, rfl, ?_⟩
  simp only [mkEntity, hw]
  cases hm : p.muscle_kg with
  | finite q =>
    rcases lt_trichotomy q 0 with h | h | h
    · norm_num [F32.div, F32.mul, F32.isFinite, h, not_lt_of_lt h]
    · norm_num [F32.div, F32.mul, F32.isFinite, h]
    · norm_num [F32.div, F32.mul, F32.isFinite, h, not_lt_of_lt h]
  | inf => norm_num [F32.div, F32.mul, F32.isFinite]
  | neginf => norm_num [F32.div, F32.mul, F32.isFinite]
  | nan => norm_num [F32.div, F32.mul, F32.isFinite]

theorem c7_zero_weight_stores_nonfinite_witness :
    (create_weight_measurement pExZero oid0 []).1
      = HandlerResult.result (Response.idBody HttpStatus.created
          (bsonObjectIdDisplay oid0))
    ∧ (create_weight_measurement pExZero oid0 []).2 = [] ++ [mkEntity oid0 pExZero]
    ∧ (mkEntity oid0 pExZero).muscle_percentage.isFinite = false :=
  c7_zero_weight_stores_nonfinite pExZero oid0 [] rfl

/-- C6: the POST route rejects with the spec's `ValidationError` → 400
response exactly when deserializing the payload fails; whenever all fields
parse, the payload is accepted and stored as is — no range validation on
any numeric field. -/
theorem c6_validation_error_iff_parse_failure (raw : RawWheightMeasurementInput)
    (oid : ObjectId) (s : Store) :
    ((create_weight_measurement_route raw oid s).1
        = HandlerResult.result validationErrorResponse
      ↔ parseWheightMeasurementInput raw = none)
    ∧ ∀ p, parseWheightMeasurementInput raw = some p →
        create_weight_measurement_route raw oid s
          = (HandlerResult.result (Response.idBody HttpStatus.created
              (bsonObjectIdDisplay oid)), s ++ [mkEntity oid p]) := by
  refine ⟨route_validation_iff_parse_none raw oid s, ?_⟩
  intro p hp
  simp only [create_weight_measurement_route, hp]
  rfl

theorem c6_validation_error_iff_parse_failure_witness :
    create_weight_measurement_route rawEx250 oid0 []
      = (HandlerResult.result (Response.idBody HttpStatus.created
          (bsonObjectIdDisplay oid0)), [] ++ [mkEntity oid0 pEx250]) :=
  (c6_validation_error_iff_parse_failure rawEx250 oid0 []).2 pEx250 rfl

theorem u8_range_iff (q : ℚ) :
    (q.den = 1 ∧ 0 ≤ q.num ∧ q.num ≤ 255) ↔ ¬(q < 0 ∨ q.den ≠ 1 ∨ 255 < q) := by
  push_neg
  constructor
  · rintro ⟨hden, h0, h255⟩
    have hq : (q.num : ℚ) = q := (Rat.den_eq_one_iff q).mp hden
    refine ⟨?_, hden, ?_⟩
    · rw [← hq]; exact_mod_cast h0
    · rw [← hq]; exact_mod_cast h255
  · rintro ⟨h0, hden, h255⟩
    have hq : (q.num : ℚ) = q := (Rat.den_eq_one_iff q).mp hden
    refine ⟨hden, ?_, ?_⟩
    · rw [← hq] at h0; exact_mod_cast h0
    · rw [← hq] at h255; exact_mod_cast h255

theorem parseU8?_eq_none_iff (q : ℚ) :
    parseU8? q = none ↔ (q < 0 ∨ q.den ≠ 1 ∨ 255 < q) := by
  rw [parseU8?]
  by_cases hcond : q.den = 1 ∧ 0 ≤ q.num ∧ q.num ≤ 255
  · rw [if_pos hcond]
    constructor
    · intro h; exact absurd h (by simp)
    · intro hb; exact absurd hb ((u8_range_iff q).mp hcond)
  · rw [if_neg hcond]
    constructor
    · intro _; by_contra hb; exact hcond ((u8_range_iff q).mpr hb)
    · intro _; rfl

/-- C10: with every field present and numeric, the POST route rejects with
the validation-error 400 response precisely when `metabolic_age` is not an
integer in `0..=255` — negative, fractional or greater than 255 — because
it deserializes as `u8`; the other ten numeric fields place no constraint
(they are arbitrary rationals here). -/
theorem c10_metabolic_age_u8 (d : ℤ) (w i f wa pr me vi mu bo maq : ℚ)
    (oid : ObjectId) (s : Store) :
    ((create_weight_measurement_route
        { date := some d, wheight_kg := some w, imc := some i,
          fat_percentage := some f, water_percentage := some wa,
          protein_percentage := some pr, metabolism_kcal := some me,
          visceral_fat_index := some vi, muscle_kg := some mu,
          bone_kg := some bo, metabolic_age := some maq } oid s).1
        = HandlerResult.result validationErrorResponse)
      ↔ (maq < 0 ∨ maq.den ≠ 1 ∨ 255 < maq) := by
  rw [route_validation_iff_parse_none, ← parseU8?_eq_none_iff]
  simp only [parseWheightMeasurementInput, Option.some_bind]
  cases hma : parseU8? maq <;> simp [hma]
